/-
Verification development for the prompt-orchestration, chunking and retrieval
core of a roleplay chat backend (FastAPI + SQLAlchemy).

Shallow embedding conventions:
* Python `str` values are modelled as `List Char`; `None`-able values as
  `Option`; Python truthiness of strings/lists is non-emptiness.
* Database reads (templates, character, history, documents) are passed in as
  explicit arguments; the wall clock is passed in as explicit date/time/day
  strings; the pgvector cosine distance of a stored document to the current
  query is passed in as a function parameter `dist`.
* Fallible steps (HTTP handlers, LLM client calls) return `Except`;
  potentially non-terminating loops take fuel and return `Option`, where
  `none` means the fuel ran out.
-/
import Mathlib

namespace RolePlayChat

/-- Abbreviation turning a Lean string literal into our `List Char` model of
Python strings. -/
def strL (s : String) : List Char := s.data

/-- Opening brace character, written via its code point. -/
def obr : Char := '\x7b'

/-- Closing brace character, written via its code point. -/
def cbr : Char := '\x7d'

/-- Python truthiness of an optional string: `None` and the empty string are
falsy. -/
def pyTruthyStr : Option (List Char) → Bool
  | none => false
  | some s => !s.isEmpty

/-- Python `x or default` for an optional string (used for
`doc.source_filename or "Unknown"` and `file.filename or "unknown.txt"`). -/
def pyOrStr (x : Option (List Char)) (d : List Char) : List Char :=
  match x with
  | none => d
  | some s => if s.isEmpty then d else s

/-- Whitespace characters recognised by Python `str.strip` / `str.split`
(ASCII subset; the repository only feeds ASCII whitespace through these). -/
def isPyWhitespace (c : Char) : Bool :=
  c = ' ' || c = '\t' || c = '\n' || c = '\r' || c = '\x0b' || c = '\x0c'

/-- Python `str.strip()`: drop whitespace from both ends. -/
def pyStrip (s : List Char) : List Char :=
  ((s.dropWhile isPyWhitespace).reverse.dropWhile isPyWhitespace).reverse

/-- Helper for `pySplitWs`: accumulates the current word (reversed). -/
def pySplitWsAux : List Char → List Char → List (List Char)
  | [], acc => if acc.isEmpty then [] else [acc.reverse]
  | c :: rest, acc =>
    if isPyWhitespace c then
      if acc.isEmpty then pySplitWsAux rest [] else acc.reverse :: pySplitWsAux rest []
    else
      pySplitWsAux rest (c :: acc)

/-- Python `str.split()` with no argument: split on runs of whitespace,
discarding empty pieces. -/
def pySplitWs (s : List Char) : List (List Char) := pySplitWsAux s []

/-- Python `sep.join(parts)`. -/
def joinSep (sep : List Char) : List (List Char) → List Char
  | [] => []
  | [x] => x
  | x :: y :: rest => x ++ sep ++ joinSep sep (y :: rest)

/-- Whitespace normalisation in `TextChunker.chunk_text`:
`" ".join(text.split())`. -/
def normalizeWs (s : List Char) : List Char := joinSep [' '] (pySplitWs s)

/-- Fueled core of Python `str.replace`: replaces non-overlapping occurrences
of `pat` left to right, never rescanning replacement text within the same
call.  The fuel is always instantiated with the length of the subject string,
which suffices because every step consumes at least one character of the
subject when `pat` is non-empty (all call sites pass the non-empty pattern
of a double-braced placeholder). -/
def replaceAllGo (pat rep : List Char) : Nat → List Char → List Char
  | _, [] => []
  | 0, s => s
  | fuel + 1, c :: rest =>
    if !pat.isEmpty && pat.isPrefixOf (c :: rest) then
      rep ++ replaceAllGo pat rep fuel ((c :: rest).drop pat.length)
    else
      c :: replaceAllGo pat rep fuel rest

/-- Python `s.replace(pat, rep)` for non-empty `pat`. -/
def replaceAll (pat rep s : List Char) : List Char :=
  replaceAllGo pat rep s.length s

/-- Substring test: does `pat` occur contiguously inside `s`? -/
def containsSub (s pat : List Char) : Bool :=
  (List.range (s.length + 1)).any fun i => pat.isPrefixOf (s.drop i)

/-- The double-braced placeholder text for a variable name, as produced in
`PromptOrchestrator._render_template`. -/
def placeholderPat (key : List Char) : List Char :=
  obr :: obr :: (key ++ [cbr, cbr])

/-- `PromptOrchestrator._render_template`: iterate over the variable mapping
in order, replacing every occurrence of each variable's placeholder with its
value.  (For string-valued variables Python's `value or ""` is the identity,
so the value is substituted directly.) -/
def renderTemplate (template : List Char) (vars : List (List Char × List Char)) : List Char :=
  vars.foldl (fun acc kv => replaceAll (placeholderPat kv.1) kv.2 acc) template

/-! ## Chunker (`app/services/chunker.py`) -/

/-- Python slice-bound normalisation: negative indices count from the end,
then the index is clamped into `[0, len]`. -/
def pyBound (len : Nat) (i : Int) : Nat :=
  if i < 0 then (i + len).toNat else min i.toNat len

/-- Python `s[a:b]`. -/
def pySlice (s : List Char) (a b : Int) : List Char :=
  (s.take (pyBound s.length b)).drop (pyBound s.length a)

/-- Python `s[a:]`. -/
def pySliceFrom (s : List Char) (a : Int) : List Char :=
  s.drop (pyBound s.length a)

/-- Python `s.rfind(pat)`: highest index at which `pat` occurs in `s`, or
`-1` if it does not occur. -/
def rfindSub (s pat : List Char) : Int :=
  match ((List.range (s.length + 1)).reverse.find? fun i => pat.isPrefixOf (s.drop i)) with
  | some i => (i : Int)
  | none => -1

/-- The sentence separators preferred by `TextChunker._find_break_point`. -/
def sentenceSeps : List (List Char) :=
  [strL ". ", strL "! ", strL "? ", strL ".\n", strL "!\n", strL "?\n"]

/-- The word-boundary fallback separators of `TextChunker._find_break_point`. -/
def wordSeps : List (List Char) := [strL " ", strL "\n", strL "\t"]

/-- `TextChunker._find_break_point`: search the last 20% of the window for a
sentence boundary, then for a word boundary; `0` if neither is found.
`int(len(text) * 0.8)` is modelled as `len * 8 / 10`, which agrees with the
float computation on the inputs evaluated in this development. -/
def findBreakPoint (text : List Char) : Nat :=
  let searchStart := text.length * 8 / 10
  let searchText := text.drop searchStart
  match (sentenceSeps.findSome? fun sep =>
      let idx := rfindSub searchText sep
      if idx = -1 then none else some (searchStart + idx.toNat + sep.length)) with
  | some bp => bp
  | none =>
    match (wordSeps.findSome? fun sep =>
        let idx := rfindSub searchText sep
        if idx = -1 then none else some (searchStart + idx.toNat + 1)) with
    | some bp => bp
    | none => 0

/-- A Python value that is either a string or an int; the `chunks` list in
`TextChunker.chunk_text` holds strings, but the loop guard at line 84 asks
`isinstance(chunks[-1], int)`, so the value domain keeps both cases. -/
inductive PyStrOrInt where
  | str (s : List Char)
  | int (n : Int)
deriving DecidableEq

/-- Python truthiness of a string-or-int value. -/
def pyTruthyVal : PyStrOrInt → Bool
  | .str s => !s.isEmpty
  | .int n => n != 0

/-- The string carried by a `PyStrOrInt` (the chunk lists built by
`chunk_text` only ever hold strings). -/
def pyValStr : PyStrOrInt → List Char
  | .str s => s
  | .int _ => []

/-- The value of the guard expression at chunker.py line 84.  Python parses
`start <= chunks[-1] if isinstance(chunks[-1], int) else 0` as the
conditional expression `(start <= chunks[-1]) if isinstance(chunks[-1], int)
else 0`, so when the last chunk is a string the expression is the int `0`
(and a bool, itself an int, when it is an int). -/
def guardValue (lastChunk : PyStrOrInt) (start : Int) : PyStrOrInt :=
  match lastChunk with
  | .int m => .int (if start ≤ m then 1 else 0)
  | .str _ => .int 0

/-- Chunker configuration after `TextChunker.__init__` converted token counts
to characters: `chunkChars = int(chunk_size * chars_per_token)` and
`overlapChars = int(chunk_overlap * chars_per_token)` (both non-negative for
the configurations the application constructs). -/
structure TextChunker where
  chunkChars : Nat
  overlapChars : Nat
deriving DecidableEq

/-- The `while start < len(text)` loop of `TextChunker.chunk_text`
(lines 62-85), with fuel; `none` means the loop did not terminate within the
given fuel. -/
def chunkLoop (c : TextChunker) (text : List Char) :
    Nat → Int → List PyStrOrInt → Option (List PyStrOrInt)
  | 0, _, _ => none
  | fuel + 1, start, chunks =>
    if start < (text.length : Int) then
      let endPos : Int := start + c.chunkChars
      if endPos ≥ (text.length : Int) then
        some (chunks ++ [.str (pyStrip (pySliceFrom text start))])
      else
        let window := pySlice text start endPos
        let breakPoint := findBreakPoint window
        let endPos := if 0 < breakPoint then start + breakPoint else endPos
        let chunks := chunks ++ [.str (pyStrip (pySlice text start endPos))]
        let nextStart := endPos - c.overlapChars
        let nextStart :=
          if pyTruthyVal (guardValue ((chunks.getLast?).getD (.int 0)) nextStart) then
            endPos
          else
            nextStart
        chunkLoop c text fuel nextStart chunks
    else
      some chunks

/-- `TextChunker.chunk_text`: empty / whitespace-only input yields no chunks;
input no longer than the window is a single chunk; otherwise the windowing
loop runs and empty chunks are filtered out at the end. -/
def chunkText (c : TextChunker) (fuel : Nat) (text : List Char) : Option (List (List Char)) :=
  if text.isEmpty || (pyStrip text).isEmpty then
    some []
  else
    let text := normalizeWs text
    if text.length ≤ c.chunkChars then
      some [text]
    else
      (chunkLoop c text fuel 0 []).map fun chunks =>
        (chunks.filter pyTruthyVal).map pyValStr

/-- A chunk record as produced by `TextChunker.chunk_file_content`. -/
structure ChunkRec where
  chunkIndex : Nat
  chunkText : List Char
  sourceFilename : Option (List Char)
deriving DecidableEq

/-- `TextChunker.chunk_file_content`: chunk the content and attach 0-based
indices and the source filename. -/
def chunkFileContent (c : TextChunker) (fuel : Nat) (content : List Char)
    (filename : Option (List Char)) : Option (List ChunkRec) :=
  (chunkText c fuel content).map fun chunks =>
    chunks.enum.map fun p => ⟨p.1, p.2, filename⟩

/-- The module-level `default_chunker = TextChunker(chunk_size=500,
chunk_overlap=100)` with the default `chars_per_token = 4.0`:
2000 window characters, 400 overlap characters. -/
def default_chunker : TextChunker := ⟨2000, 400⟩

/-! ## Prompt orchestrator (`app/services/prompt_orchestrator.py`) -/

/-- Fueled decimal rendering of a natural number (Python `str(i)` for the
non-negative snippet indices). -/
def natToCharsGo : Nat → Nat → List Char
  | 0, _ => []
  | fuel + 1, n =>
    if n < 10 then [Nat.digitChar n]
    else natToCharsGo fuel (n / 10) ++ [Nat.digitChar (n % 10)]

/-- Decimal digits of a natural number; fuel `n + 1` always suffices. -/
def natToChars (n : Nat) : List Char := natToCharsGo (n + 1) n

/-- One `{role, content}` entry of the message array. -/
structure ChatMessage where
  role : List Char
  content : List Char
deriving DecidableEq

/-- The `"system"` role string. -/
def sysRole : List Char := strL "system"

/-- The `"user"` role string. -/
def userRole : List Char := strL "user"

/-- The character row referenced by the conversation (`Character` model):
`name` is non-null, the prompt fields are nullable free text. -/
structure CharacterFields where
  name : List Char
  description : Option (List Char)
  personalityPrompt : Option (List Char)
  scenarioPrompt : Option (List Char)
  exampleDialoguesPrompt : Option (List Char)
  systemPrompt : Option (List Char)
deriving DecidableEq

/-- The active texts of the four global prompt templates, as looked up by key
in the dict built by `_load_templates`; `none` models a key absent from the
templates table. -/
structure TemplateStore where
  globalSystem : Option (List Char)
  realTime : Option (List Char)
  roleplayMeta : Option (List Char)
  dialogueSystem : Option (List Char)
deriving DecidableEq

/-- The wall-clock strings `datetime.now().strftime(...)` produces for
`date`, `time` and `day`. -/
structure NowVars where
  date : List Char
  time : List Char
  day : List Char
deriving DecidableEq

/-- The per-conversation retrieval settings (`Conversation` model): both
nullable in the database. -/
structure ConversationRec where
  similarityThreshold : Option Rat
  topK : Option Int
deriving DecidableEq

/-- A stored knowledge-base document chunk (`KBDocument` model): owning
knowledge base, optional embedding vector, optional source filename, text. -/
structure KBDoc where
  kbId : Int
  embedding : Option (List Rat)
  sourceFilename : Option (List Char)
  chunkText : List Char
deriving DecidableEq

/-- `PromptOrchestrator._get_template_variables`: the ordered variable
mapping; `char` is the character's name when a character is attached, else
`"Assistant"`. -/
def templateVariables (character : Option CharacterFields) (now : NowVars) :
    List (List Char × List Char) :=
  [(strL "char", match character with | some c => c.name | none => strL "Assistant"),
   (strL "user", strL "User"),
   (strL "date", now.date),
   (strL "time", now.time),
   (strL "day", now.day)]

/-- `PromptOrchestrator._build_character_prompts`: one system entry per
truthy character field, in source order; the example-dialogues field is
rendered with the variables, the character system prompt is passed through
verbatim. -/
def buildCharacterPrompts (character : Option CharacterFields)
    (vars : List (List Char × List Char)) : List ChatMessage :=
  match character with
  | none => []
  | some c =>
    (if pyTruthyStr c.description then
      [⟨sysRole, strL "Character Description: " ++ c.description.getD []⟩]
    else []) ++
    (if pyTruthyStr c.personalityPrompt then
      [⟨sysRole, strL "Character Personality: " ++ c.personalityPrompt.getD []⟩]
    else []) ++
    (if pyTruthyStr c.scenarioPrompt then
      [⟨sysRole, strL "Scene: " ++ c.scenarioPrompt.getD []⟩]
    else []) ++
    (if pyTruthyStr c.exampleDialoguesPrompt then
      [⟨sysRole, strL "Example Dialogue:\n" ++
        renderTemplate (c.exampleDialoguesPrompt.getD []) vars⟩]
    else []) ++
    (if pyTruthyStr c.systemPrompt then
      [⟨sysRole, c.systemPrompt.getD []⟩]
    else [])

/-- The `for key in [...]` loop at lines 232-235 of `build_messages`: for
each of the four global template keys, in order, append the rendered template
as a system entry if the key is present and its text truthy. -/
def globalTemplateMessages (tpl : TemplateStore)
    (vars : List (List Char × List Char)) : List ChatMessage :=
  (if pyTruthyStr tpl.globalSystem then
    [⟨sysRole, renderTemplate (tpl.globalSystem.getD []) vars⟩]
  else []) ++
  (if pyTruthyStr tpl.realTime then
    [⟨sysRole, renderTemplate (tpl.realTime.getD []) vars⟩]
  else []) ++
  (if pyTruthyStr tpl.roleplayMeta then
    [⟨sysRole, renderTemplate (tpl.roleplayMeta.getD []) vars⟩]
  else []) ++
  (if pyTruthyStr tpl.dialogueSystem then
    [⟨sysRole, renderTemplate (tpl.dialogueSystem.getD []) vars⟩]
  else [])

/-- Python `x or default` for a nullable float (`None` and `0.0` are falsy). -/
def pyOrRat (x : Option Rat) (d : Rat) : Rat :=
  match x with
  | none => d
  | some v => if v = 0 then d else v

/-- Python `x or default` for a nullable int (`None` and `0` are falsy). -/
def pyOrInt (x : Option Int) (d : Int) : Int :=
  match x with
  | none => d
  | some v => if v = 0 then d else v

/-- Python truthiness of a nullable list (`None` and `[]` are falsy). -/
def pyTruthyList {α : Type} : Option (List α) → Bool
  | none => false
  | some l => !l.isEmpty

/-- Ordered insertion used to model the `ORDER BY cosine_distance` of the
retrieval query. -/
def insertByDist (dist : KBDoc → Rat) (d : KBDoc) : List KBDoc → List KBDoc
  | [] => [d]
  | e :: rest => if dist d ≤ dist e then d :: e :: rest else e :: insertByDist dist d rest

/-- Sort candidates by ascending distance to the query. -/
def sortByDist (dist : KBDoc → Rat) (docs : List KBDoc) : List KBDoc :=
  docs.foldr (insertByDist dist) []

/-- The retrieval query of `_build_rag_prompt` (lines 174-181): keep the
documents whose knowledge base is in scope and whose embedding is non-null,
order by cosine distance to the query (given as `dist`), and keep the first
`topK`. -/
def retrieveDocs (docs : List KBDoc) (dist : KBDoc → Rat) (kbIds : List Int)
    (topK : Nat) : List KBDoc :=
  (sortByDist dist (docs.filter fun d => kbIds.contains d.kbId && d.embedding.isSome)).take topK

/-- One formatted snippet `"[i] (Source: <filename or Unknown>)\n<chunk>"`. -/
def ragSnippet (idx : Nat) (doc : KBDoc) : List Char :=
  strL "[" ++ natToChars idx ++ strL "] (Source: " ++
    pyOrStr doc.sourceFilename (strL "Unknown") ++ strL ")\n" ++ doc.chunkText

/-- The list of retrieval results `_build_rag_prompt` formats (empty when the
RAG preconditions fail); factored out to state counting properties. -/
def ragResults (conv : ConversationRec) (docs : List KBDoc) (dist : KBDoc → Rat)
    (kbIds : Option (List Int)) (queryEmbedding : Option (List Rat)) : List KBDoc :=
  if !pyTruthyList kbIds || !pyTruthyList queryEmbedding then []
  else retrieveDocs docs dist (kbIds.getD []) (pyOrInt conv.topK 5).toNat

/-- `PromptOrchestrator._build_rag_prompt`: `None` unless both the scope and
the query embedding are truthy and the retrieval returns results; otherwise
the snippets joined under the `"Relevant Knowledge:"` header.  The
conversation's similarity threshold is read (line 166) but not used by the
query. -/
def buildRagPrompt (conv : ConversationRec) (docs : List KBDoc) (dist : KBDoc → Rat)
    (kbIds : Option (List Int)) (queryEmbedding : Option (List Rat)) :
    Option (List Char) :=
  if !pyTruthyList kbIds || !pyTruthyList queryEmbedding then none
  else
    let _threshold := pyOrRat conv.similarityThreshold (1/2)
    let topK := pyOrInt conv.topK 5
    let results := retrieveDocs docs dist (kbIds.getD []) topK.toNat
    if results.isEmpty then none
    else
      some (strL "Relevant Knowledge:\n" ++
        joinSep (strL "\n\n") ((List.enumFrom 1 results).map fun p => ragSnippet p.1 p.2))

/-- Lines 241-246 of `build_messages`: the RAG block (at most one system
entry) and the snippet count obtained as `rag_context.count("[")`. -/
def ragMessagesAndCount (conv : ConversationRec) (docs : List KBDoc)
    (dist : KBDoc → Rat) (kbIds : Option (List Int))
    (queryEmbedding : Option (List Rat)) : List ChatMessage × Nat :=
  if pyTruthyList kbIds && pyTruthyList queryEmbedding then
    match buildRagPrompt conv docs dist kbIds queryEmbedding with
    | some ctx => ([⟨sysRole, ctx⟩], ctx.count '[')
    | none => ([], 0)
  else ([], 0)

/-- `PromptOrchestrator._get_conversation_history`: the query orders the
conversation's messages by `created_at` descending, limits to the history
window and reverses; given the conversation's persisted messages `msgs` in
chronological order this is the last `maxHistory` of them. -/
def conversationHistory (msgs : List ChatMessage) (maxHistory : Nat) : List ChatMessage :=
  ((msgs.reverse).take maxHistory).reverse

/-- `PromptOrchestrator.build_messages`: global templates, character prompts,
the RAG block, history, then the user entry; returns the messages and the
RAG snippet count. -/
def buildMessages (tpl : TemplateStore) (character : Option CharacterFields)
    (conv : ConversationRec) (docs : List KBDoc) (dist : KBDoc → Rat)
    (msgs : List ChatMessage) (maxHistory : Nat) (now : NowVars)
    (userInput : List Char) (kbIds : Option (List Int))
    (queryEmbedding : Option (List Rat)) : List ChatMessage × Nat :=
  let vars := templateVariables character now
  let ragPart := ragMessagesAndCount conv docs dist kbIds queryEmbedding
  (globalTemplateMessages tpl vars ++
    buildCharacterPrompts character vars ++
    ragPart.1 ++
    conversationHistory msgs maxHistory ++
    [⟨userRole, userInput⟩],
   ragPart.2)

/-! ## Routers (`app/routers/conversations.py`, `app/routers/knowledge_bases.py`) -/

/-- HTTP error classes raised by the routers. -/
inductive HttpErr where
  | notFound (detail : List Char)
  | badRequest (detail : List Char)
  | badGateway (detail : List Char)
deriving DecidableEq

/-- The successful outcome of one `send_message` turn: the message array sent
to the LLM, the reported `rag_snippets_used`, and the assistant text. -/
structure SendOutcome where
  messages : List ChatMessage
  ragSnippetsUsed : Nat
  assistantContent : List Char
deriving DecidableEq

/-- Lines 253-263 of `send_message`: when knowledge bases are requested, try
to embed the user input; on an `LLMClientError` continue with no embedding;
on success take the first returned vector if any. -/
def queryEmbeddingStep (kbIds : Option (List Int))
    (embedCall : Except (List Char) (List (List Rat))) : Option (List Rat) :=
  if pyTruthyList kbIds then
    match embedCall with
    | .ok [] => none
    | .ok (e :: _) => some e
    | .error _ => none
  else none

/-- `send_message` (conversations.py lines 207-303), with persistence of the
user/assistant rows left to the external store: 404 when the conversation is
missing, 400 when no provider is configured, then the per-turn embedding
step, prompt assembly, and the chat completion call (502 on failure). -/
def sendMessage (conversationFound providerFound : Bool)
    (content : List Char) (kbIds : Option (List Int))
    (embedCall : Except (List Char) (List (List Rat)))
    (chatCall : Except (List Char) (List Char))
    (tpl : TemplateStore) (character : Option CharacterFields)
    (conv : ConversationRec) (docs : List KBDoc) (dist : KBDoc → Rat)
    (msgs : List ChatMessage) (maxHistory : Nat) (now : NowVars) :
    Except HttpErr SendOutcome :=
  if !conversationFound then
    .error (.notFound (strL "Conversation not found"))
  else if !providerFound then
    .error (.badRequest (strL "No API provider configured. Please add and activate a provider in Settings."))
  else
    let queryEmbedding := queryEmbeddingStep kbIds embedCall
    let built := buildMessages tpl character conv docs dist msgs maxHistory now
      content kbIds queryEmbedding
    match chatCall with
    | .error e => .error (.badGateway (strL "LLM API error: " ++ e))
    | .ok assistantContent => .ok ⟨built.1, built.2, assistantContent⟩

/-- `SUPPORTED_EXTENSIONS` of the knowledge-bases router. -/
def supportedExtensions : List (List Char) := [strL ".txt", strL ".md", strL ".markdown"]

/-- `MAX_FILE_SIZE` of the knowledge-bases router: 10 MiB. -/
def maxFileSize : Nat := 10 * 1024 * 1024

/-- ASCII lowering, modelling Python `str.lower()` on the ASCII filenames the
extension check compares against. -/
def lowerAscii (s : List Char) : List Char := s.map Char.toLower

/-- The extension computation of `upload_document`:
`"." + filename.split(".")[-1].lower() if "." in filename else ""`. -/
def pyExtension (filename : List Char) : List Char :=
  if filename.contains '.' then
    '.' :: lowerAscii (((filename.splitOn '.').getLast?).getD [])
  else []

/-- A persisted `KBDocument` row as created by `upload_document`. -/
structure KBDocumentRow where
  kbId : Int
  sourceFilename : Option (List Char)
  chunkIndex : Nat
  chunkText : List Char
  embedding : Option (List Rat)
deriving DecidableEq

/-- `upload_document` (knowledge_bases.py lines 165-284), with the chunker
given fuel (`none` = the chunking loop failed to terminate): KB lookup,
extension check, size check, UTF-8 decode (given as `decoded`), emptiness
check, chunking, then creation of one `KBDocument` row per chunk with the
batch embeddings aligned by index (`embeddings[i] if embeddings and
i < len(embeddings) else None`).  The successful payload is the list of
created rows and the reported embedded count. -/
def uploadDocument (kbFound : Bool) (kbId : Int) (filename : Option (List Char))
    (rawByteLen : Nat) (decoded : Option (List Char)) (providerFound : Bool)
    (embedCall : Except (List Char) (List (List Rat))) (fuel : Nat) :
    Option (Except HttpErr (List KBDocumentRow × Nat)) :=
  if !kbFound then
    some (.error (.notFound (strL "Knowledge base not found")))
  else
    let fname := pyOrStr filename (strL "unknown.txt")
    if !(supportedExtensions.contains (pyExtension fname)) then
      some (.error (.badRequest (strL "Unsupported file type")))
    else if maxFileSize < rawByteLen then
      some (.error (.badRequest (strL "File too large. Max size: 10 MB")))
    else
      match decoded with
      | none =>
        some (.error (.badRequest
          (strL "File encoding not supported. Please use UTF-8 encoded text files.")))
      | some text =>
        if (pyStrip text).isEmpty then
          some (.error (.badRequest (strL "File is empty or contains only whitespace.")))
        else
          match chunkFileContent default_chunker fuel text (some fname) with
          | none => none
          | some chunks =>
            if chunks.isEmpty then
              some (.error (.badRequest (strL "No content to process after chunking.")))
            else
              let embeddings :=
                if providerFound then
                  match embedCall with
                  | .ok embs => some embs
                  | .error _ => none
                else none
              let createdDocs := chunks.enum.map fun p =>
                KBDocumentRow.mk kbId p.2.sourceFilename p.2.chunkIndex p.2.chunkText
                  (match embeddings with
                   | some embs => if !embs.isEmpty then embs.get? p.1 else none
                   | none => none)
              let embeddedCount := match embeddings with
                | some embs => embs.length
                | none => 0
              some (.ok (createdDocs, embeddedCount))

/-! ## Lemmas about replacement and substring occurrence -/

theorem containsSub_of_isPrefixOf {s pat : List Char} (h : pat.isPrefixOf s = true) :
    containsSub s pat = true := by
  unfold containsSub
  rw [List.any_eq_true]
  exact ⟨0, by simp [List.mem_range], by simpa using h⟩

theorem containsSub_cons_of_containsSub {c : Char} {s pat : List Char}
    (h : containsSub s pat = true) : containsSub (c :: s) pat = true := by
  unfold containsSub at h ⊢
  rw [List.any_eq_true] at h ⊢
  obtain ⟨i, hi, hpre⟩ := h
  refine ⟨i + 1, ?_, ?_⟩
  · simp only [List.mem_range, List.length_cons] at hi ⊢
    omega
  · simpa using hpre

theorem replaceAllGo_of_not_contains {pat rep s : List Char}
    (h : containsSub s pat = false) : ∀ fuel, replaceAllGo pat rep fuel s = s := by
  induction s with
  | nil => intro fuel; cases fuel <;> rfl
  | cons c rest ih =>
    intro fuel
    cases fuel with
    | zero => rfl
    | succ n =>
      have hpre : pat.isPrefixOf (c :: rest) = false := by
        by_contra hne
        have : pat.isPrefixOf (c :: rest) = true := by
          revert hne; cases pat.isPrefixOf (c :: rest) <;> simp
        rw [containsSub_of_isPrefixOf this] at h
        exact absurd h (by simp)
      have hrest : containsSub rest pat = false := by
        by_contra hne
        have : containsSub rest pat = true := by
          revert hne; cases containsSub rest pat <;> simp
        rw [containsSub_cons_of_containsSub this] at h
        exact absurd h (by simp)
      show replaceAllGo pat rep (n + 1) (c :: rest) = c :: rest
      unfold replaceAllGo
      rw [hpre]
      simp only [Bool.and_false, Bool.false_eq_true, if_false]
      rw [ih hrest n]

theorem replaceAll_of_not_contains {pat rep s : List Char}
    (h : containsSub s pat = false) : replaceAll pat rep s = s :=
  replaceAllGo_of_not_contains h s.length

/-! ## Lemmas about the RAG snippet count -/

theorem natToCharsGo_count_bracket : ∀ fuel n, (natToCharsGo fuel n).count '[' = 0 := by
  intro fuel
  induction fuel with
  | zero => intro n; rfl
  | succ m ih =>
    intro n
    unfold natToCharsGo
    by_cases h : n < 10
    · rw [if_pos h]
      have : Nat.digitChar n ≠ '[' := by
        interval_cases n <;> decide
      simp [List.count_cons, this]
    · rw [if_neg h]
      have hd : Nat.digitChar (n % 10) ≠ '[' := by
        have : n % 10 < 10 := Nat.mod_lt _ (by omega)
        interval_cases h : n % 10 <;> decide
      rw [List.count_append, ih]
      simp [List.count_cons, hd]

theorem natToChars_count_bracket (n : Nat) : (natToChars n).count '[' = 0 :=
  natToCharsGo_count_bracket (n + 1) n

theorem ragSnippet_count_bracket {doc : KBDoc} (idx : Nat)
    (hchunk : doc.chunkText.count '[' = 0)
    (hsrc : (pyOrStr doc.sourceFilename (strL "Unknown")).count '[' = 0) :
    (ragSnippet idx doc).count '[' = 1 := by
  unfold ragSnippet
  simp only [List.count_append, natToChars_count_bracket, hchunk, hsrc]
  decide

theorem joinSep_snippets_count_bracket :
    ∀ (results : List KBDoc) (start : Nat),
      (∀ d ∈ results, d.chunkText.count '[' = 0 ∧
        (pyOrStr d.sourceFilename (strL "Unknown")).count '[' = 0) →
      (joinSep (strL "\n\n")
        ((List.enumFrom start results).map fun p => ragSnippet p.1 p.2)).count '[' =
        results.length := by
  intro results
  induction results with
  | nil => intro start _; rfl
  | cons d rest ih =>
    intro start h
    have hd := h d (by simp)
    cases rest with
    | nil =>
      simp only [List.enumFrom, List.map, joinSep, List.length_cons, List.length_nil]
      rw [ragSnippet_count_bracket start hd.1 hd.2]
    | cons d2 rest2 =>
      have hrest : ∀ x ∈ d2 :: rest2, x.chunkText.count '[' = 0 ∧
          (pyOrStr x.sourceFilename (strL "Unknown")).count '[' = 0 := by
        intro x hx
        exact h x (by simp [hx])
      have := ih (start + 1) hrest
      simp only [List.enumFrom, List.map, joinSep] at this ⊢
      rw [List.count_append, List.count_append, ragSnippet_count_bracket start hd.1 hd.2,
        this]
      have hsep : (strL "\n\n").count '[' = 0 := by decide
      rw [hsep]
      simp only [List.length_cons]
      omega

/-! ## Lemmas about retrieval -/

theorem mem_insertByDist {dist : KBDoc → Rat} {d x : KBDoc} :
    ∀ {l : List KBDoc}, x ∈ insertByDist dist d l → x = d ∨ x ∈ l := by
  intro l
  induction l with
  | nil => intro h; exact Or.inl (by simpa [insertByDist] using h)
  | cons e rest ih =>
    intro h
    unfold insertByDist at h
    by_cases hle : dist d ≤ dist e
    · rw [if_pos hle] at h
      rcases List.mem_cons.mp h with h1 | h2
      · exact Or.inl h1
      · exact Or.inr h2
    · rw [if_neg hle] at h
      rcases List.mem_cons.mp h with h1 | h2
      · exact Or.inr (by simp [h1])
      · rcases ih h2 with h3 | h4
        · exact Or.inl h3
        · exact Or.inr (by simp [h4])

theorem mem_sortByDist {dist : KBDoc → Rat} {x : KBDoc} :
    ∀ {l : List KBDoc}, x ∈ sortByDist dist l → x ∈ l := by
  intro l
  induction l with
  | nil => intro h; simp [sortByDist] at h
  | cons e rest ih =>
    intro h
    unfold sortByDist at h
    simp only [List.foldr_cons] at h
    rcases mem_insertByDist h with h1 | h2
    · simp [h1]
    · exact List.mem_cons.mpr (Or.inr (ih h2))

theorem mem_retrieveDocs {docs : List KBDoc} {dist : KBDoc → Rat} {kbIds : List Int}
    {topK : Nat} {x : KBDoc} (h : x ∈ retrieveDocs docs dist kbIds topK) :
    x ∈ docs ∧ kbIds.contains x.kbId = true ∧ x.embedding.isSome = true := by
  unfold retrieveDocs at h
  have h1 := mem_sortByDist (List.mem_of_mem_take h)
  have h2 := List.mem_filter.mp h1
  refine ⟨h2.1, ?_, ?_⟩
  · have := h2.2
    simp only [Bool.and_eq_true] at this
    exact this.1
  · have := h2.2
    simp only [Bool.and_eq_true] at this
    exact this.2

theorem buildRagPrompt_eq (conv : ConversationRec) (docs : List KBDoc)
    (dist : KBDoc → Rat) (kbIds : Option (List Int)) (queryEmbedding : Option (List Rat)) :
    buildRagPrompt conv docs dist kbIds queryEmbedding =
      if (ragResults conv docs dist kbIds queryEmbedding).isEmpty then none
      else
        some (strL "Relevant Knowledge:\n" ++
          joinSep (strL "\n\n")
            ((List.enumFrom 1 (ragResults conv docs dist kbIds queryEmbedding)).map
              fun p => ragSnippet p.1 p.2)) := by
  unfold buildRagPrompt ragResults
  cases hb : (!pyTruthyList kbIds || !pyTruthyList queryEmbedding) with
  | true => simp [hb]
  | false => simp [hb]

/-! ## Lemmas about message assembly -/

theorem role_mem_ite_singleton {c : Prop} [Decidable c] {x : List Char} {m : ChatMessage}
    (h : m ∈ (if c then [ChatMessage.mk sysRole x] else [])) : m.role = sysRole := by
  split at h
  · rw [List.mem_singleton.mp h]
  · simp at h

theorem role_mem_globalTemplateMessages {tpl : TemplateStore}
    {vars : List (List Char × List Char)} {m : ChatMessage}
    (h : m ∈ globalTemplateMessages tpl vars) : m.role = sysRole := by
  unfold globalTemplateMessages at h
  simp only [List.mem_append] at h
  rcases h with ((h | h) | h) | h <;> exact role_mem_ite_singleton h

theorem role_mem_buildCharacterPrompts {character : Option CharacterFields}
    {vars : List (List Char × List Char)} {m : ChatMessage}
    (h : m ∈ buildCharacterPrompts character vars) : m.role = sysRole := by
  cases character with
  | none => simp [buildCharacterPrompts] at h
  | some c =>
    simp only [buildCharacterPrompts, List.mem_append] at h
    rcases h with (((h | h) | h) | h) | h <;> exact role_mem_ite_singleton h

theorem ragMessages_length_le_one (conv : ConversationRec) (docs : List KBDoc)
    (dist : KBDoc → Rat) (kbIds : Option (List Int)) (queryEmbedding : Option (List Rat)) :
    (ragMessagesAndCount conv docs dist kbIds queryEmbedding).1.length ≤ 1 := by
  unfold ragMessagesAndCount
  split_ifs
  · rcases hm : buildRagPrompt conv docs dist kbIds queryEmbedding with _ | ctx <;> simp [hm]
  · simp

theorem role_mem_ragMessages {conv : ConversationRec} {docs : List KBDoc}
    {dist : KBDoc → Rat} {kbIds : Option (List Int)} {queryEmbedding : Option (List Rat)}
    {m : ChatMessage} (h : m ∈ (ragMessagesAndCount conv docs dist kbIds queryEmbedding).1) :
    m.role = sysRole := by
  unfold ragMessagesAndCount at h
  split_ifs at h
  · rcases hm : buildRagPrompt conv docs dist kbIds queryEmbedding with _ | ctx <;>
      rw [hm] at h <;> simp_all
  · simp at h

theorem conversationHistory_isSuffix (msgs : List ChatMessage) (maxHistory : Nat) :
    conversationHistory msgs maxHistory <:+ msgs := by
  refine ⟨(msgs.reverse.drop maxHistory).reverse, ?_⟩
  unfold conversationHistory
  rw [← List.reverse_append, List.take_append_drop, List.reverse_reverse]

/-! ## Lemmas about whitespace-only text -/

theorem pyStrip_isEmpty_of_all_ws {text : List Char}
    (h : text.all isPyWhitespace = true) : (pyStrip text).isEmpty = true := by
  unfold pyStrip
  have h1 : text.dropWhile isPyWhitespace = [] :=
    List.dropWhile_eq_nil_iff.mpr (by simpa [List.all_eq_true] using h)
  rw [h1]
  rfl

/-! ## Lemmas about the degenerate chunker configuration -/

theorem guardValue_str_falsy (s : List Char) (start : Int) :
    pyTruthyVal (guardValue (.str s) start) = false := rfl

theorem chunkLoop_degenerate_step (n : Nat) (chunks : List PyStrOrInt) :
    chunkLoop ⟨1, 1⟩ (strL "ab") (n + 1) 0 chunks =
      chunkLoop ⟨1, 1⟩ (strL "ab") n 0 (chunks ++ [.str (strL "a")]) := by
  show chunkLoop ⟨1, 1⟩ ['a', 'b'] (n + 1) 0 chunks =
    chunkLoop ⟨1, 1⟩ ['a', 'b'] n 0 (chunks ++ [.str ['a']])
  have hwin : pySlice ['a', 'b'] 0 1 = ['a'] := by decide
  have hbp : findBreakPoint ['a'] = 0 := by decide
  have hstrip : pyStrip ['a'] = ['a'] := by decide
  simp only [chunkLoop]
  norm_num [hwin, hbp, hstrip, List.getLast?_concat, guardValue, pyTruthyVal]

theorem chunkLoop_degenerate_none :
    ∀ (fuel : Nat) (chunks : List PyStrOrInt),
      chunkLoop ⟨1, 1⟩ (strL "ab") fuel 0 chunks = none := by
  intro fuel
  induction fuel with
  | zero => intro chunks; rfl
  | succ n ih =>
    intro chunks
    rw [chunkLoop_degenerate_step n chunks]
    exact ih _

theorem chunkText_degenerate_none (fuel : Nat) :
    chunkText ⟨1, 1⟩ fuel (strL "ab") = none := by
  unfold chunkText
  rw [if_neg (by decide)]
  have hn : normalizeWs (strL "ab") = strL "ab" := by decide
  rw [hn, if_neg (by decide), chunkLoop_degenerate_none fuel []]
  rfl

/-! ## Lemmas about non-empty prompt content -/

theorem content_ne_nil_mem_buildCharacterPrompts {character : Option CharacterFields}
    {vars : List (List Char × List Char)} {m : ChatMessage}
    (h : m ∈ buildCharacterPrompts character vars) : m.content ≠ [] := by
  cases character with
  | none => simp [buildCharacterPrompts] at h
  | some c =>
    simp only [buildCharacterPrompts, List.mem_append] at h
    rcases h with (((h | h) | h) | h) | h
    · split at h
      · rw [List.mem_singleton.mp h]; simp [strL]
      · simp at h
    · split at h
      · rw [List.mem_singleton.mp h]; simp [strL]
      · simp at h
    · split at h
      · rw [List.mem_singleton.mp h]; simp [strL]
      · simp at h
    · split at h
      · rw [List.mem_singleton.mp h]; simp [strL]
      · simp at h
    · split at h
      · rw [List.mem_singleton.mp h]
        rcases hs : c.systemPrompt with _ | s
        · rename_i htruthy
          rw [hs] at htruthy
          simp [pyTruthyStr] at htruthy
        · rename_i htruthy
          rw [hs] at htruthy
          simp only [pyTruthyStr, Bool.not_eq_true'] at htruthy
          simp only [hs, Option.getD_some]
          intro hnil
          rw [hnil] at htruthy
          simp at htruthy
      · simp at h

theorem globalTemplateMessages_length (tpl : TemplateStore)
    (vars : List (List Char × List Char)) :
    (globalTemplateMessages tpl vars).length =
      List.countP pyTruthyStr
        [tpl.globalSystem, tpl.realTime, tpl.roleplayMeta, tpl.dialogueSystem] := by
  unfold globalTemplateMessages
  simp only [List.length_append, List.countP_cons, List.countP_nil]
  split_ifs <;> simp_all

/-! ## Claim theorems -/

/-- Claim C1: the spec asserts the chunking loop always makes forward
progress, the guard forcing the next start to the window end when the
overlap reaches the window length.  In the code the guard expression
`start <= chunks[-1] if isinstance(chunks[-1], int) else 0` is dead: the
chunk list holds strings, so the expression is the falsy int `0` and the
guard never fires; with `chunk_size=1, chunk_overlap=1, chars_per_token=1`
on the text `"ab"` the window start stays at `0` forever and `chunk_text`
never terminates (the loop returns `none` for every fuel). -/
theorem chunk_text_guard_dead_no_forward_progress :
    (∀ (s : List Char) (start : Int), pyTruthyVal (guardValue (.str s) start) = false) ∧
    (∀ (fuel : Nat) (chunks : List PyStrOrInt),
      chunkLoop ⟨1, 1⟩ (strL "ab") fuel 0 chunks = none) ∧
    (∀ fuel : Nat, chunkText ⟨1, 1⟩ fuel (strL "ab") = none) :=
  ⟨guardValue_str_falsy, chunkLoop_degenerate_none, chunkText_degenerate_none⟩

/-- Claim C5 counterexample: rendering is not a simultaneous substitution
independent of the mapping's iteration order — on the template `"{{a}}"`
with `a ↦ "{{b}}"` and `b ↦ "X"` the two iteration orders give different
results (`"X"` versus `"{{b}}"`): a placeholder introduced by a substituted
value is expanded by a later-processed variable. -/
theorem render_template_order_dependence_counterexample :
    renderTemplate (placeholderPat (strL "a"))
        [(strL "a", placeholderPat (strL "b")), (strL "b", strL "X")] ≠
      renderTemplate (placeholderPat (strL "a"))
        [(strL "b", strL "X"), (strL "a", placeholderPat (strL "b"))] := by
  decide

/-- Claim C5 (amended): `_render_template` is a sequential pass over the
mapping in iteration order (each variable's replacement is applied to the
result of the previous ones); a placeholder introduced by a substituted
value is expanded when its variable comes later in the mapping and left
verbatim when it comes earlier, so the result is order-dependent and can
differ from simultaneous substitution. -/
theorem render_template_sequential_pass :
    (∀ (t k v : List Char) (rest : List (List Char × List Char)),
      renderTemplate t ((k, v) :: rest) =
        renderTemplate (replaceAll (placeholderPat k) v t) rest) ∧
    renderTemplate (placeholderPat (strL "a"))
        [(strL "a", placeholderPat (strL "b")), (strL "b", strL "X")] = strL "X" ∧
    renderTemplate (placeholderPat (strL "a"))
        [(strL "b", strL "X"), (strL "a", placeholderPat (strL "b"))] =
      placeholderPat (strL "b") :=
  ⟨fun _ _ _ _ => rfl, by decide, by decide⟩

/-- Claim C6: rendering is idempotent on resolved text — if the string
contains no placeholder of any variable in the mapping, `_render_template`
returns it unchanged. -/
theorem render_template_idempotent_on_resolved (s : List Char)
    (vars : List (List Char × List Char))
    (h : ∀ kv ∈ vars, containsSub s (placeholderPat kv.1) = false) :
    renderTemplate s vars = s := by
  induction vars with
  | nil => rfl
  | cons kv rest ih =>
    unfold renderTemplate
    simp only [List.foldl_cons]
    rw [replaceAll_of_not_contains (h kv (by simp))]
    exact ih fun kv2 hkv2 => h kv2 (by simp [hkv2])

/-- Claim C6 witness: a concrete resolved string with the orchestrator's
variable names is returned unchanged. -/
theorem render_template_idempotent_witness :
    renderTemplate (strL "hello world")
      [(strL "char", strL "Alice"), (strL "user", strL "User"),
       (strL "date", strL "2026-10-12"), (strL "time", strL "09:00"),
       (strL "day", strL "Sunday")] = strL "hello world" :=
  render_template_idempotent_on_resolved _ _ (by decide)

/-- Claim C10: empty or whitespace-only input produces no chunks —
`chunk_text` returns the empty list and `chunk_file_content` the empty list
of chunk records, for every chunker configuration and fuel. -/
theorem chunk_text_whitespace_returns_empty (c : TextChunker) (fuel : Nat)
    (text : List Char) (fname : Option (List Char))
    (h : text.all isPyWhitespace = true) :
    chunkText c fuel text = some [] ∧ chunkFileContent c fuel text fname = some [] := by
  have hs := pyStrip_isEmpty_of_all_ws h
  have h1 : chunkText c fuel text = some [] := by
    unfold chunkText
    rw [if_pos (by simp [hs])]
  exact ⟨h1, by unfold chunkFileContent; rw [h1]; rfl⟩

/-- Claim C10 witness: the default chunker on a whitespace-only string. -/
theorem chunk_text_whitespace_witness :
    chunkText default_chunker 0 (strL " \t\n") = some [] ∧
      chunkFileContent default_chunker 0 (strL " \t\n") none = some [] :=
  chunk_text_whitespace_returns_empty default_chunker 0 (strL " \t\n") none (by decide)

/-- Claim C2 counterexample: with a single retrieved chunk whose text
contains a `[`, `build_messages` reports 2 RAG snippets while only 1
retrieval result was used — the count obtained as `rag_context.count("[")`
is not the number of results used. -/
theorem rag_snippet_count_bracket_counterexample :
    (buildMessages ⟨none, none, none, none⟩ none ⟨none, none⟩
        [⟨1, some [1], none, strL "a[b"⟩] (fun _ => 0) [] 20
        ⟨strL "d", strL "t", strL "w"⟩ (strL "hi") (some [1]) (some [1])).2 = 2 ∧
      (ragResults ⟨none, none⟩ [⟨1, some [1], none, strL "a[b"⟩] (fun _ => 0)
        (some [1]) (some [1])).length = 1 ∧
      (buildMessages ⟨none, none, none, none⟩ none ⟨none, none⟩
        [⟨1, some [1], none, strL "a[b"⟩] (fun _ => 0) [] 20
        ⟨strL "d", strL "t", strL "w"⟩ (strL "hi") (some [1]) (some [1])).2 ≠
        (ragResults ⟨none, none⟩ [⟨1, some [1], none, strL "a[b"⟩] (fun _ => 0)
          (some [1]) (some [1])).length := by
  refine ⟨by decide, by decide, by decide⟩

/-- Claim C2 (amended): the returned `rag_snippet_count` equals the number
of retrieval results actually used (and 0 when no RAG block is appended)
provided no chunk text and no formatted source filename contains the
character `[`; in general the count is the number of `[` occurrences in the
formatted block. -/
theorem rag_snippet_count_eq_results_without_brackets (tpl : TemplateStore)
    (character : Option CharacterFields) (conv : ConversationRec) (docs : List KBDoc)
    (dist : KBDoc → Rat) (msgs : List ChatMessage) (maxHistory : Nat) (now : NowVars)
    (userInput : List Char) (kbIds : Option (List Int)) (queryEmbedding : Option (List Rat))
    (h : ∀ d ∈ docs, d.chunkText.count '[' = 0 ∧
      (pyOrStr d.sourceFilename (strL "Unknown")).count '[' = 0) :
    (buildMessages tpl character conv docs dist msgs maxHistory now userInput kbIds
        queryEmbedding).2 =
      (ragResults conv docs dist kbIds queryEmbedding).length := by
  have hs : (buildMessages tpl character conv docs dist msgs maxHistory now userInput kbIds
      queryEmbedding).2 = (ragMessagesAndCount conv docs dist kbIds queryEmbedding).2 := rfl
  rw [hs]
  unfold ragMessagesAndCount
  cases hb : (pyTruthyList kbIds && pyTruthyList queryEmbedding) with
  | false =>
    have hr : ragResults conv docs dist kbIds queryEmbedding = [] := by
      unfold ragResults
      rw [if_pos]
      rw [← Bool.not_and, hb]
      rfl
    simp [hr]
  | true =>
    rw [if_pos rfl, buildRagPrompt_eq]
    cases he : (ragResults conv docs dist kbIds queryEmbedding).isEmpty with
    | true =>
      rw [if_pos rfl]
      rw [List.isEmpty_iff] at he
      simp [he]
    | false =>
      rw [if_neg (by simp)]
      have hmem : ∀ d ∈ ragResults conv docs dist kbIds queryEmbedding,
          d.chunkText.count '[' = 0 ∧
            (pyOrStr d.sourceFilename (strL "Unknown")).count '[' = 0 := by
        intro d hd
        unfold ragResults at hd
        rw [if_neg] at hd
        · exact h d (mem_retrieveDocs hd).1
        · rw [← Bool.not_and, hb]
          simp
      show List.count '[' (strL "Relevant Knowledge:\n" ++
          joinSep (strL "\n\n")
            ((List.enumFrom 1 (ragResults conv docs dist kbIds queryEmbedding)).map
              fun p => ragSnippet p.1 p.2)) =
        (ragResults conv docs dist kbIds queryEmbedding).length
      rw [List.count_append, joinSep_snippets_count_bracket _ 1 hmem]
      have hh : List.count '[' (strL "Relevant Knowledge:\n") = 0 := by decide
      rw [hh, Nat.zero_add]

/-- Claim C2 witness: with bracket-free chunk texts the reported count
equals the number of retrieval results used. -/
theorem rag_snippet_count_eq_results_witness :
    (buildMessages ⟨none, none, none, none⟩ none ⟨none, none⟩
        [⟨1, some [1], none, strL "hello"⟩] (fun _ => 0) [] 20
        ⟨strL "d", strL "t", strL "w"⟩ (strL "hi") (some [1]) (some [1])).2 =
      (ragResults ⟨none, none⟩ [⟨1, some [1], none, strL "hello"⟩] (fun _ => 0)
        (some [1]) (some [1])).length :=
  rag_snippet_count_eq_results_without_brackets _ _ _ _ _ _ _ _ _ _ _ (by decide)

/-- Claim C3: `build_messages` always orders its output as the global
template system entries, then the character-derived system entries, then at
most one RAG system entry, then the history (the chronological suffix of the
conversation's persisted messages), then exactly one final user entry
carrying the user input. -/
theorem build_messages_ordering_invariant (tpl : TemplateStore)
    (character : Option CharacterFields) (conv : ConversationRec) (docs : List KBDoc)
    (dist : KBDoc → Rat) (msgs : List ChatMessage) (maxHistory : Nat) (now : NowVars)
    (userInput : List Char) (kbIds : Option (List Int))
    (queryEmbedding : Option (List Rat)) :
    ∃ g c r hist,
      (buildMessages tpl character conv docs dist msgs maxHistory now userInput kbIds
          queryEmbedding).1 = g ++ c ++ r ++ hist ++ [⟨userRole, userInput⟩] ∧
      g = globalTemplateMessages tpl (templateVariables character now) ∧
      c = buildCharacterPrompts character (templateVariables character now) ∧
      r = (ragMessagesAndCount conv docs dist kbIds queryEmbedding).1 ∧
      hist = conversationHistory msgs maxHistory ∧
      (∀ m ∈ g, m.role = sysRole) ∧
      (∀ m ∈ c, m.role = sysRole) ∧
      (∀ m ∈ r, m.role = sysRole) ∧
      r.length ≤ 1 ∧
      hist <:+ msgs := by
  refine ⟨_, _, _, _, rfl, rfl, rfl, rfl, rfl, ?_, ?_, ?_, ?_, ?_⟩
  · exact fun m hm => role_mem_globalTemplateMessages hm
  · exact fun m hm => role_mem_buildCharacterPrompts hm
  · exact fun m hm => role_mem_ragMessages hm
  · exact ragMessages_length_le_one conv docs dist kbIds queryEmbedding
  · exact conversationHistory_isSuffix msgs maxHistory

/-- Claim C4 counterexample: a stored chunk whose cosine distance (1) to the
query exceeds the conversation's effective threshold (0.5, the default for
an unset `similarity_threshold`) is still returned by the retrieval step and
used for the RAG block — the threshold does not exclude it. -/
theorem retrieval_threshold_not_enforced_counterexample :
    KBDoc.mk 1 (some [1]) none (strL "x") ∈
        ragResults ⟨none, some 5⟩ [KBDoc.mk 1 (some [1]) none (strL "x")]
          (fun _ => (1 : Rat)) (some [1]) (some [1]) ∧
      pyOrRat (ConversationRec.mk none (some 5)).similarityThreshold (1 / 2) <
        (fun _ => (1 : Rat)) (KBDoc.mk 1 (some [1]) none (strL "x")) := by
  constructor
  · decide
  · show pyOrRat none (1 / 2) < 1
    simp only [pyOrRat]
    norm_num

/-- Claim C4 (amended): the retrieval step returns the `top_k` nearest
candidates (within the kb scope and with a non-null embedding) regardless of
the similarity threshold: the threshold is read from the conversation but
not applied, so changing it never changes the results or the RAG block. -/
theorem retrieval_ignores_threshold (conv : ConversationRec) (docs : List KBDoc)
    (dist : KBDoc → Rat) (kbIds : Option (List Int)) (queryEmbedding : Option (List Rat))
    (th : Option Rat) :
    ragResults ⟨th, conv.topK⟩ docs dist kbIds queryEmbedding =
        ragResults conv docs dist kbIds queryEmbedding ∧
      buildRagPrompt ⟨th, conv.topK⟩ docs dist kbIds queryEmbedding =
        buildRagPrompt conv docs dist kbIds queryEmbedding ∧
      (∀ d ∈ ragResults conv docs dist kbIds queryEmbedding,
        d ∈ docs ∧ (kbIds.getD []).contains d.kbId = true ∧ d.embedding.isSome = true) ∧
      (ragResults conv docs dist kbIds queryEmbedding).length ≤
        (pyOrInt conv.topK 5).toNat := by
  refine ⟨rfl, rfl, ?_, ?_⟩
  · intro d hd
    unfold ragResults at hd
    split at hd
    · simp at hd
    · exact mem_retrieveDocs hd
  · unfold ragResults
    split
    · simp
    · exact List.length_take_le _ _

/-- Claim C7 counterexample: a stored template consisting only of the
`char` placeholder, rendered for a character whose name is the empty string,
produces a system entry with empty content in the `build_messages` output —
the emptiness check is applied to the stored text before rendering. -/
theorem empty_rendered_template_message_counterexample :
    ChatMessage.mk sysRole [] ∈
      (buildMessages ⟨some (placeholderPat (strL "char")), none, none, none⟩
        (some ⟨[], none, none, none, none, none⟩) ⟨none, none⟩ [] (fun _ => 0) [] 20
        ⟨strL "d", strL "t", strL "w"⟩ (strL "hi") none none).1 := by
  decide

/-- Claim C7 (amended): the omission check is on the stored text, not the
rendered text: an absent or empty template key contributes no entry (the
number of global-template entries equals the number of truthy stored
texts), and character-derived entries always have non-empty content; a
non-empty stored template that renders to the empty string still produces
an (empty-content) entry, as the counterexample shows. -/
theorem omission_invariant_on_raw_fields (tpl : TemplateStore)
    (character : Option CharacterFields) (now : NowVars) :
    (∀ m ∈ buildCharacterPrompts character (templateVariables character now),
      m.content ≠ []) ∧
      (globalTemplateMessages tpl (templateVariables character now)).length =
        List.countP pyTruthyStr
          [tpl.globalSystem, tpl.realTime, tpl.roleplayMeta, tpl.dialogueSystem] :=
  ⟨fun _ hm => content_ne_nil_mem_buildCharacterPrompts hm,
    globalTemplateMessages_length _ _⟩

/-- Claim C8: when the per-turn query embedding call fails with a client
error, `send_message` still completes (given the chat call succeeds): the
prompt is built with no query embedding, so the output contains no RAG block
and the response reports `rag_snippets_used = 0`. -/
theorem send_message_embedding_failure_proceeds_without_rag
    (conversationFound providerFound : Bool) (content : List Char)
    (kbIds : Option (List Int)) (embedCall : Except (List Char) (List (List Rat)))
    (chatCall : Except (List Char) (List Char)) (e txt : List Char)
    (tpl : TemplateStore) (character : Option CharacterFields) (conv : ConversationRec)
    (docs : List KBDoc) (dist : KBDoc → Rat) (msgs : List ChatMessage)
    (maxHistory : Nat) (now : NowVars)
    (hconv : conversationFound = true) (hprov : providerFound = true)
    (hembed : embedCall = Except.error e) (hchat : chatCall = Except.ok txt) :
    sendMessage conversationFound providerFound content kbIds embedCall chatCall tpl
        character conv docs dist msgs maxHistory now =
      Except.ok ⟨globalTemplateMessages tpl (templateVariables character now) ++
          buildCharacterPrompts character (templateVariables character now) ++
          conversationHistory msgs maxHistory ++ [⟨userRole, content⟩],
        0, txt⟩ := by
  subst hconv hprov hembed hchat
  have hq : queryEmbeddingStep kbIds (Except.error e) = none := by
    unfold queryEmbeddingStep
    split <;> rfl
  have hrag : ragMessagesAndCount conv docs dist kbIds none = ([], 0) := by
    unfold ragMessagesAndCount
    simp [pyTruthyList]
  have hb : buildMessages tpl character conv docs dist msgs maxHistory now content
      kbIds none =
      (globalTemplateMessages tpl (templateVariables character now) ++
        buildCharacterPrompts character (templateVariables character now) ++
        conversationHistory msgs maxHistory ++ [⟨userRole, content⟩], 0) := by
    unfold buildMessages
    rw [hrag]
    simp
  unfold sendMessage
  simp only [Bool.not_true, Bool.false_eq_true, if_false, hq, hb]

/-- Claim C8 witness: a concrete turn whose embedding call fails completes
with zero reported RAG snippets. -/
theorem send_message_embedding_failure_witness :
    sendMessage true true (strL "hello") (some [1]) (Except.error (strL "boom"))
        (Except.ok (strL "hi there")) ⟨none, none, none, none⟩ none ⟨none, none⟩ []
        (fun _ => 0) [] 20 ⟨strL "d", strL "t", strL "w"⟩ =
      Except.ok ⟨[⟨userRole, strL "hello"⟩], 0, strL "hi there"⟩ := by
  have := send_message_embedding_failure_proceeds_without_rag true true (strL "hello")
    (some [1]) (Except.error (strL "boom")) (Except.ok (strL "hi there"))
    (strL "boom") (strL "hi there") ⟨none, none, none, none⟩ none ⟨none, none⟩ []
    (fun _ => 0) [] 20 ⟨strL "d", strL "t", strL "w"⟩ rfl rfl rfl rfl
  simpa using this

/-- Claim C9: an upload whose decoded content is empty or whitespace-only
(and that passes the earlier knowledge-base, extension and size checks) is
rejected with a bad-request validation error before chunking — for every
chunker fuel and provider state, so no chunk record is ever created. -/
theorem upload_document_rejects_empty_before_chunking (kbId : Int)
    (filename : Option (List Char)) (rawByteLen : Nat) (text : List Char)
    (providerFound : Bool) (embedCall : Except (List Char) (List (List Rat)))
    (fuel : Nat)
    (hext : supportedExtensions.contains
      (pyExtension (pyOrStr filename (strL "unknown.txt"))) = true)
    (hsize : rawByteLen ≤ maxFileSize)
    (hws : (pyStrip text).isEmpty = true) :
    uploadDocument true kbId filename rawByteLen (some text) providerFound embedCall
        fuel =
      some (Except.error (HttpErr.badRequest
        (strL "File is empty or contains only whitespace."))) := by
  unfold uploadDocument
  rw [if_neg (by simp), if_neg (by rw [hext]; simp), if_neg (by omega)]
  simp [hws]

/-- Claim C9 witness: a concrete whitespace-only `.txt` upload is rejected
with the validation error. -/
theorem upload_document_rejects_empty_witness :
    uploadDocument true 1 (some (strL "notes.txt")) 3 (some (strL "  \n")) false
        (Except.error []) 0 =
      some (Except.error (HttpErr.badRequest
        (strL "File is empty or contains only whitespace."))) :=
  upload_document_rejects_empty_before_chunking 1 (some (strL "notes.txt")) 3
    (strL "  \n") false (Except.error []) 0 (by decide) (by decide) (by decide)

end RolePlayChat
